import Mathlib

/-!
Verification development for the data-visualization dashboard backend
(`backend/backend.py`): a shallow embedding of its ingest pipeline
(`insert_data`, the JSON/CSV decoders, the query endpoints) and proofs of
the specified properties.
-/

/-- A loosely typed value as it appears in a decoded field mapping: the
Python values reaching `insert_data` are `None`, strings, or numbers. -/
inductive Val where
  | null
  | str (s : String)
  | int (n : Int)
deriving DecidableEq

/-- Python truthiness of a value (`if item.get('end_year')` in the source):
`None`, `0`, and the empty string are falsy. -/
def Val.truthy : Val → Bool
  | .null => false
  | .str s => s ≠ ""
  | .int n => n ≠ 0

/-- Python `str()` applied to a value. -/
def Val.pyStr : Val → String
  | .null => "None"
  | .str s => s
  | .int n => toString n

/-- Python's `str.lower()`, applied characterwise. -/
def pyLower (s : String) : String := String.mk (s.data.map Char.toLower)

/-- Split a text into its lines at newline characters. -/
def splitLinesAux : List Char → List Char → List String → List String
  | [], cur, acc => ((String.mk cur.reverse) :: acc).reverse
  | '\n' :: cs, cur, acc => splitLinesAux cs [] ((String.mk cur.reverse) :: acc)
  | c :: cs, cur, acc => splitLinesAux cs (c :: cur) acc

/-- Split a text into its lines. -/
def splitLines (s : String) : List String := splitLinesAux s.data [] []

/-- Read a run of decimal digits as a number, or fail at the first
non-digit. -/
def parseNatAux : List Char → Nat → Option Nat
  | [], acc => some acc
  | c :: cs, acc =>
      if c.isDigit then parseNatAux cs (acc * 10 + (c.toNat - 48)) else none

/-- A decoded field mapping (one input row or JSON object): a finite map
from field names to values, as an association list. -/
abbrev Item := List (String × Val)

/-- Python `item.get(key)`: the stored value, or `None` when absent. -/
def Item.get (it : Item) (k : String) : Val :=
  match List.lookup k it with
  | some v => v
  | none => .null

/-- One stored record's user-settable columns, mirroring the `data` table
schema of `init_db` (the auto-assigned `id` is carried separately and
`added_date` is defaulted by the store). -/
structure Record where
  title : Val
  topic : Val
  sector : Val
  region : Val
  country : Val
  source : Val
  end_year : Val
  intensity : Val
  likelihood : Val
  relevance : Val
  pest : Val
  swot : Val
  url : Val
deriving DecidableEq

/-- The parameter tuple built by `insert_data` for each item: each schema
column is `item.get(column)`, except `end_year`, which the source computes
as `str(item.get('end_year')) if item.get('end_year') else None`. -/
def normalizeItem (it : Item) : Record where
  title := it.get "title"
  topic := it.get "topic"
  sector := it.get "sector"
  region := it.get "region"
  country := it.get "country"
  source := it.get "source"
  end_year :=
    if (it.get "end_year").truthy then .str (it.get "end_year").pyStr else .null
  intensity := it.get "intensity"
  likelihood := it.get "likelihood"
  relevance := it.get "relevance"
  pest := it.get "pest"
  swot := it.get "swot"
  url := it.get "url"

/-- The `data` table: rows in insertion (rowid) order, each with its
auto-assigned integer key, plus the next key to assign.  `DELETE FROM data`
does not reset the `AUTOINCREMENT` sequence, so `nextId` survives deletes. -/
structure DB where
  rows : List (Nat × Record)
  nextId : Nat
deriving DecidableEq

/-- `DELETE FROM data`. -/
def DB.deleteAll (db : DB) : DB := { db with rows := [] }

/-- One successful `INSERT INTO data (...) VALUES (...)`. -/
def DB.insertOne (db : DB) (r : Record) : DB :=
  { rows := db.rows ++ [(db.nextId, r)], nextId := db.nextId + 1 }

/-- `SELECT COUNT(*) FROM data`, the body of `GET /api/data/count`. -/
def get_data_count (db : DB) : Nat := db.rows.length

/-- The summary dictionary returned by `insert_data`. -/
structure IngestResult where
  count : Nat
  message : String
deriving DecidableEq

/-- The `for item in data` loop of `insert_data`.  The store layer may
raise on an individual `INSERT`; `ok` says which records it accepts.  A
raising record is caught (`except ... continue`): it is skipped and not
counted, and the loop moves on. -/
def insertLoop (ok : Record → Bool) : List Item → DB → Nat → DB × Nat
  | [], db, c => (db, c)
  | it :: rest, db, c =>
      let r := normalizeItem it
      if ok r then insertLoop ok rest (db.insertOne r) (c + 1)
      else insertLoop ok rest db c

/-- `insert_data(data, append)`: clear the table unless appending, run the
insertion loop, and return the summary.  `ok` abstracts which individual
inserts the store layer accepts (in the source, an exception from
`c.execute` on that record). -/
def insert_data (ok : Record → Bool) (data : List Item) (append : Bool)
    (db : DB) : DB × IngestResult :=
  let db0 := if append then db else db.deleteAll
  let p := insertLoop ok data db0 0
  (p.1, ⟨p.2, "Successfully processed " ++ toString p.2 ++ " records"⟩)

/-- A store-layer `ok` oracle under which every insert succeeds: the table
has no constraints beyond the auto key, so well-formed records always
insert. -/
def okAll : Record → Bool := fun _ => true

/-- Number of items of a batch whose insert the store accepts. -/
def numOk (ok : Record → Bool) (data : List Item) : Nat :=
  (data.filter fun it => ok (normalizeItem it)).length

/-- The fresh rows appended by the insertion loop, given the first id to
assign. -/
def newRows (ok : Record → Bool) : Nat → List Item → List (Nat × Record)
  | _, [] => []
  | n, it :: rest =>
      let r := normalizeItem it
      if ok r then (n, r) :: newRows ok (n + 1) rest else newRows ok n rest

/-- What a decoded JSON upload looks like after `json.load` plus the
`if not isinstance(data, list): data = [data]` wrapping of
`process_json_file`: either a top-level array of objects or a single
object. -/
inductive JsonDoc where
  | arr (items : List Item)
  | single (it : Item)

/-- The value `process_*_file` hands back to `upload_file`: the ingest
summary, or an error dictionary. -/
inductive ProcResult where
  | ok (res : IngestResult)
  | error (msg : String)
deriving DecidableEq

/-- `process_json_file`, parameterized by the outcome of `json.load` on the
saved upload (`Except.error e` is a raised parse exception with text `e`):
on failure it returns the error dictionary without touching the store; on
success it wraps a non-array value and calls `insert_data`. -/
def process_json_file (ok : Record → Bool) (parsed : Except String JsonDoc)
    (append : Bool) (db : DB) : DB × ProcResult :=
  match parsed with
  | .error e => (db, .error ("Error processing JSON file: " ++ e))
  | .ok doc =>
      let data := match doc with
        | .arr items => items
        | .single it => [it]
      let p := insert_data ok data append db
      (p.1, .ok p.2)

/-- The JSON branch of `upload_file`: read `option` from the form
(`append` iff it lowercases to "append"), process, and answer 400 with the
error body when the result carries an error, else 200 with the summary. -/
def upload_json (ok : Record → Bool) (parsed : Except String JsonDoc)
    (opt : String) (db : DB) : DB × Nat × ProcResult :=
  let append := pyLower opt == "append"
  let p := process_json_file ok parsed append db
  match p.2 with
  | .error e => (p.1, 400, .error e)
  | .ok r => (p.1, 200, .ok r)

/-- `GET /api/data`: `limit` and `offset` as parsed from the query string
(`none` = absent).  The source only appends `LIMIT ? OFFSET ?` to the query
when `limit` is not `None`; `offset` defaults to 0. -/
def get_data (limit : Option Nat) (offsetParam : Option Nat) (db : DB) :
    List (Nat × Record) :=
  let offset := offsetParam.getD 0
  match limit with
  | none => db.rows
  | some l => (db.rows.drop offset).take l

/-- Modelled from the spec: the Schema Store `page` contract says that when
`limit` is absent it returns all records starting at `offset` (with
`offset` defaulting to 0).  This definition follows the spec's words, to be
compared with `get_data`, which follows the source. -/
def get_data_spec (limit : Option Nat) (offsetParam : Option Nat) (db : DB) :
    List (Nat × Record) :=
  let offset := offsetParam.getD 0
  match limit with
  | none => db.rows.drop offset
  | some l => (db.rows.drop offset).take l

/-- Modelled from the spec: the delimited-text decoder of `pandas.read_csv`
is an external library, so its convention is taken from the spec — a field
boundary is an unquoted comma, quotes enclose fields that may embed
delimiters, and a doubled quote inside a quoted field is a literal quote.
This splits one CSV line into its cell texts. -/
def splitCSVAux : List Char → Bool → List Char → List String → List String
  | [], _, cur, acc => ((String.mk cur.reverse) :: acc).reverse
  | '"' :: '"' :: cs, true, cur, acc => splitCSVAux cs true ('"' :: cur) acc
  | '"' :: cs, inQ, cur, acc => splitCSVAux cs (!inQ) cur acc
  | ',' :: cs, false, cur, acc =>
      splitCSVAux cs false [] ((String.mk cur.reverse) :: acc)
  | c :: cs, inQ, cur, acc => splitCSVAux cs inQ (c :: cur) acc

/-- Split a CSV line into cells. -/
def splitCSVLine (s : String) : List String := splitCSVAux s.data false [] []

/-- Modelled from the spec: type inference of the delimited-text decoder —
a cell parseable as a number becomes numeric, else string; empty cells
become absent (here `None`, which `item.get` also yields for absent
keys). -/
def parseCell (s : String) : Val :=
  match s.data with
  | [] => .null
  | '-' :: c :: rest =>
      match parseNatAux (c :: rest) 0 with
      | some n => .int (-(n : Int))
      | none => .str s
  | cs =>
      match parseNatAux cs 0 with
      | some n => .int (n : Int)
      | none => .str s

/-- Modelled from the spec: `pandas.read_csv` followed by
`df.to_dict('records')` — the first line is the header giving field names,
and each further non-empty line becomes one field mapping keyed by the
header names. -/
def csv_decode (s : String) : List Item :=
  match splitLines s with
  | [] => []
  | header :: rows =>
      let keys := splitCSVLine header
      (rows.filter fun row => row ≠ "").map fun row =>
        keys.zip ((splitCSVLine row).map parseCell)

/-- `process_csv_file`, given the text of the saved upload: decode with the
delimited-text convention and hand the field mappings to `insert_data`. -/
def process_csv_file (ok : Record → Bool) (content : String) (append : Bool)
    (db : DB) : DB × ProcResult :=
  let p := insert_data ok (csv_decode content) append db
  (p.1, .ok p.2)

/-- The first sample record hard-coded in the `POST /api/init` handler. -/
def sample1 : Item :=
  [("title", .str "Climate change impacts on agriculture"),
   ("topic", .str "climate"),
   ("sector", .str "agriculture"),
   ("region", .str "North America"),
   ("country", .str "United States"),
   ("source", .str "NASA"),
   ("end_year", .str "2025"),
   ("intensity", .int 5),
   ("likelihood", .int 3),
   ("relevance", .int 4),
   ("pest", .str "Environmental"),
   ("swot", .str "Threat"),
   ("url", .str "https://climate.nasa.gov")]

/-- The second sample record hard-coded in the `POST /api/init` handler. -/
def sample2 : Item :=
  [("title", .str "Renewable energy adoption trends"),
   ("topic", .str "energy"),
   ("sector", .str "utilities"),
   ("region", .str "Europe"),
   ("country", .str "Germany"),
   ("source", .str "IEA"),
   ("end_year", .str "2023"),
   ("intensity", .int 4),
   ("likelihood", .int 5),
   ("relevance", .int 5),
   ("pest", .str "Technological"),
   ("swot", .str "Opportunity"),
   ("url", .str "https://www.iea.org")]

/-- `POST /api/init`: `insert_data(sample_data, append=False)`.  The
sample records are well formed, so every insert succeeds at the store
layer. -/
def init_database (db : DB) : DB × IngestResult :=
  insert_data okAll [sample1, sample2] false db

/-- The stored form of the first sample record: normalization leaves every
field as supplied (`end_year` is the non-empty string "2025"). -/
def sampleRec1 : Record where
  title := .str "Climate change impacts on agriculture"
  topic := .str "climate"
  sector := .str "agriculture"
  region := .str "North America"
  country := .str "United States"
  source := .str "NASA"
  end_year := .str "2025"
  intensity := .int 5
  likelihood := .int 3
  relevance := .int 4
  pest := .str "Environmental"
  swot := .str "Threat"
  url := .str "https://climate.nasa.gov"

/-- The stored form of the second sample record. -/
def sampleRec2 : Record where
  title := .str "Renewable energy adoption trends"
  topic := .str "energy"
  sector := .str "utilities"
  region := .str "Europe"
  country := .str "Germany"
  source := .str "IEA"
  end_year := .str "2023"
  intensity := .int 4
  likelihood := .int 5
  relevance := .int 5
  pest := .str "Technological"
  swot := .str "Opportunity"
  url := .str "https://www.iea.org"

/-- A one-row table used as a concrete instance in examples: one stored
record under id 0, next id 1. -/
def exampleDB : DB := ⟨[(0, sampleRec1)], 1⟩

/-- A concrete well-formed one-field input item. -/
def wItem : Item := [("title", Val.str "t")]

/-- The insertion loop appends exactly the accepted records, with
consecutive fresh ids, and counts them. -/
theorem insertLoop_eq (ok : Record → Bool) (data : List Item) :
    ∀ (db : DB) (c : Nat),
      insertLoop ok data db c
        = ({ rows := db.rows ++ newRows ok db.nextId data,
             nextId := db.nextId + numOk ok data },
           c + numOk ok data) := by
  induction data with
  | nil => intro db c; simp [insertLoop, newRows, numOk]
  | cons it rest ih =>
      intro db c
      by_cases h : ok (normalizeItem it) = true
      · simp [insertLoop, h, ih, DB.insertOne, newRows, numOk,
          List.filter_cons, List.append_assoc]
        (try omega)
      · simp [insertLoop, h, ih, newRows, numOk, List.filter_cons]

/-- The fresh rows are as many as the accepted items. -/
theorem newRows_length (ok : Record → Bool) (data : List Item) :
    ∀ n, (newRows ok n data).length = numOk ok data := by
  induction data with
  | nil => intro n; simp [newRows, numOk]
  | cons it rest ih =>
      intro n
      by_cases h : ok (normalizeItem it) = true <;>
        simp [newRows, numOk, List.filter_cons, h, ih, numOk.eq_def]

/-- The record values of the fresh rows are exactly the normalized accepted
items, in order. -/
theorem newRows_map_snd (ok : Record → Bool) (data : List Item) :
    ∀ n, (newRows ok n data).map Prod.snd
      = (data.filter fun it => ok (normalizeItem it)).map normalizeItem := by
  induction data with
  | nil => intro n; simp [newRows]
  | cons it rest ih =>
      intro n
      by_cases h : ok (normalizeItem it) = true <;>
        simp [newRows, List.filter_cons, h, ih]

/-- Every fresh row's id is at least the starting id. -/
theorem newRows_id_ge (ok : Record → Bool) (data : List Item) :
    ∀ n p, p ∈ newRows ok n data → n ≤ p.1 := by
  induction data with
  | nil => intro n p hp; simp [newRows] at hp
  | cons it rest ih =>
      intro n p hp
      by_cases h : ok (normalizeItem it) = true
      · simp only [newRows, h, if_true, List.mem_cons] at hp
        rcases hp with hp | hp
        · subst hp; exact le_refl n
        · exact le_trans (Nat.le_succ n) (ih (n + 1) p hp)
      · simp only [newRows, h, if_false] at hp
        exact ih n p hp

/-- When the store accepts every record of the batch, the accepted count is
the batch length. -/
theorem numOk_all (ok : Record → Bool) (data : List Item)
    (hok : ∀ it ∈ data, ok (normalizeItem it) = true) :
    numOk ok data = data.length := by
  unfold numOk
  rw [List.filter_eq_self.mpr hok]

/-- Closed form of `insert_data`: the surviving old rows (none in replace
mode), the appended accepted records, and the summary. -/
theorem insert_data_eq (ok : Record → Bool) (data : List Item)
    (append : Bool) (db : DB) :
    insert_data ok data append db
      = ({ rows := (if append then db.rows else []) ++ newRows ok db.nextId data,
           nextId := db.nextId + numOk ok data },
         ⟨numOk ok data,
          "Successfully processed " ++ toString (numOk ok data) ++ " records"⟩) := by
  cases append <;> simp [insert_data, DB.deleteAll, insertLoop_eq]

/-- Claim C1: ingesting a valid JSON array of N well-formed records with
option=replace leaves the store holding exactly N records (as counted by
`GET /api/data/count`), and no pre-existing row survives. -/
theorem c1_replace_count_and_clears (ok : Record → Bool) (data : List Item)
    (db : DB)
    (hok : ∀ it ∈ data, ok (normalizeItem it) = true)
    (hwf : ∀ p ∈ db.rows, p.1 < db.nextId) :
    get_data_count ((upload_json ok (.ok (.arr data)) "replace" db).1)
        = data.length
    ∧ ∀ p ∈ db.rows,
        p ∉ ((upload_json ok (.ok (.arr data)) "replace" db).1).rows := by
  have hb : (pyLower "replace" == "append") = false := by decide
  have hrows : ((upload_json ok (.ok (.arr data)) "replace" db).1).rows
      = newRows ok db.nextId data := by
    simp [upload_json, process_json_file, hb, insert_data_eq]
  constructor
  · simp [get_data_count, hrows, newRows_length, numOk_all ok data hok]
  · intro p hp hmem
    rw [hrows] at hmem
    exact absurd (newRows_id_ge ok data db.nextId p hmem)
      (Nat.not_le.mpr (hwf p hp))

/-- Witness for C1 at a concrete input: one new record replacing a one-row
table. -/
theorem c1_replace_count_and_clears_witness :
    get_data_count ((upload_json okAll (.ok (.arr [wItem])) "replace" exampleDB).1)
        = 1
    ∧ ∀ p ∈ exampleDB.rows,
        p ∉ ((upload_json okAll (.ok (.arr [wItem])) "replace" exampleDB).1).rows :=
  c1_replace_count_and_clears okAll [wItem] exampleDB (by decide) (by decide)

/-- Claim C2: ingesting N well-formed records with option=append into a
table of M rows yields count M+N, and the M pre-existing rows survive
unchanged, same ids and same field values, as a prefix of the table. -/
theorem c2_append_count_and_preserves (ok : Record → Bool) (data : List Item)
    (db : DB)
    (hok : ∀ it ∈ data, ok (normalizeItem it) = true) :
    get_data_count ((insert_data ok data true db).1)
        = get_data_count db + data.length
    ∧ ((insert_data ok data true db).1).rows.take db.rows.length = db.rows := by
  constructor
  · simp [insert_data_eq, get_data_count, newRows_length, numOk_all ok data hok]
  · simp [insert_data_eq, List.take_left]

/-- Witness for C2 at a concrete input: appending one record to a one-row
table. -/
theorem c2_append_count_and_preserves_witness :
    get_data_count ((insert_data okAll [wItem] true exampleDB).1)
        = get_data_count exampleDB + 1
    ∧ ((insert_data okAll [wItem] true exampleDB).1).rows.take
        exampleDB.rows.length = exampleDB.rows :=
  c2_append_count_and_preserves okAll [wItem] exampleDB (by decide)

/-- Claim C3: a store-layer failure on an individual record is skipped; the
batch continues (the stored rows are exactly the accepted records, in
order, after the untouched base), the returned count excludes the skipped
records, and the caller still gets a 200 summary, never an error. -/
theorem c3_per_record_failure_skipped (ok : Record → Bool) (data : List Item)
    (append : Bool) (db : DB) (opt : String) :
    ((insert_data ok data append db).2).count = numOk ok data
    ∧ ((insert_data ok data append db).1).rows.map Prod.snd
        = ((if append then db.rows else []).map Prod.snd)
          ++ ((data.filter fun it => ok (normalizeItem it)).map normalizeItem)
    ∧ (upload_json ok (.ok (.arr data)) opt db).2.1 = 200 := by
  refine ⟨?_, ?_, ?_⟩
  · simp [insert_data_eq]
  · simp [insert_data_eq, newRows_map_snd]
  · simp [upload_json, process_json_file, insert_data_eq]

/-- Claim C4 (counterexample): the record with `end_year` present and equal
to the number 0 — a present, non-null value — is normalized to null, not to
the text "0": the coercion tests Python truthiness, not presence. -/
theorem c4_end_year_counterexample :
    Item.get [("end_year", Val.int 0)] "end_year" = Val.int 0
    ∧ Val.int 0 ≠ Val.null
    ∧ (normalizeItem [("end_year", Val.int 0)]).end_year = Val.null := by
  decide

/-- Claim C4 (amended): `end_year` is coerced to its textual representation
when present and truthy, and is normalized to null when absent, null, or
falsy (the number 0 or the empty string). -/
theorem c4_end_year_normalization (it : Item) :
    (normalizeItem it).end_year =
      match it.get "end_year" with
      | .null => .null
      | .int n => if n = 0 then .null else .str (toString n)
      | .str s => if s = "" then .null else .str s := by
  cases hv : it.get "end_year" with
  | null => simp [normalizeItem, hv, Val.truthy]
  | str s =>
      by_cases hs : s = "" <;>
        simp [normalizeItem, hv, Val.truthy, Val.pyStr, hs]
  | int n =>
      by_cases hn : n = 0 <;>
        simp [normalizeItem, hv, Val.truthy, Val.pyStr, hn]

/-- Claim C5: decoding the CSV upload with header title,topic,intensity and
single data row "A,B",x,5 stores exactly one record with title "A,B", topic
"x", intensity 5 and every other schema field null, and reports one
processed record. -/
theorem c5_csv_single_row (db : DB) :
    ((process_csv_file okAll "title,topic,intensity\n\"A,B\",x,5" false
        db).1).rows.map Prod.snd
      = [{ title := Val.str "A,B", topic := Val.str "x", sector := Val.null,
           region := Val.null, country := Val.null, source := Val.null,
           end_year := Val.null, intensity := Val.int 5,
           likelihood := Val.null, relevance := Val.null, pest := Val.null,
           swot := Val.null, url := Val.null }]
    ∧ ((process_csv_file okAll "title,topic,intensity\n\"A,B\",x,5" false
        db).2)
      = ProcResult.ok ⟨1, "Successfully processed 1 records"⟩ := by
  have hd : csv_decode "title,topic,intensity\n\"A,B\",x,5"
      = [[("title", Val.str "A,B"), ("topic", Val.str "x"),
          ("intensity", Val.int 5)]] := by decide
  constructor
  · simp [process_csv_file, insert_data_eq, hd, newRows, okAll]
    decide
  · simp [process_csv_file, insert_data_eq, hd]
    decide

/-- Claim C6 (counterexample): on a one-row table, `GET /api/data` with
offset 1 and no limit returns the full row list, not the rows from index 1
on as the spec's `page` contract requires. -/
theorem c6_offset_counterexample :
    get_data none (some 1) exampleDB ≠ get_data_spec none (some 1) exampleDB := by
  decide

/-- Claim C6 (amended): when limit is absent the offset is ignored and all
stored records are returned (the behavior of offset 0); when limit is
present the listing honors offset, which defaults to 0 when not
supplied. -/
theorem c6_limit_absent_ignores_offset (off : Option Nat) (db : DB) :
    get_data none off db = get_data_spec none (some 0) db
    ∧ (∀ l, get_data (some l) off db = get_data_spec (some l) off db)
    ∧ (∀ l, get_data (some l) none db = get_data (some l) (some 0) db) := by
  refine ⟨?_, ?_, ?_⟩ <;> simp [get_data, get_data_spec]

/-- Claim C7: when the JSON decode of the upload fails as a whole, the
handler answers 400 with an error body and the store is returned exactly as
it was: nothing is deleted or inserted, whatever the mode option. -/
theorem c7_decode_failure_aborts (ok : Record → Bool) (e : String)
    (opt : String) (db : DB) :
    upload_json ok (.error e) opt db
      = (db, 400, .error ("Error processing JSON file: " ++ e)) := by
  rfl

/-- Claim C8: whatever the prior table contents, `POST /api/init` reports
count 2 and leaves exactly the two fixed sample records in the store, and a
second consecutive call reports count 2 and leaves the same two records
again, not four. -/
theorem c8_init_idempotent (db : DB) :
    (init_database db).2.count = 2
    ∧ ((init_database db).1).rows.map Prod.snd = [sampleRec1, sampleRec2]
    ∧ (init_database ((init_database db).1)).2.count = 2
    ∧ ((init_database ((init_database db).1)).1).rows.map Prod.snd
        = [sampleRec1, sampleRec2]
    ∧ get_data_count ((init_database ((init_database db).1)).1) = 2 := by
  have h1 : normalizeItem sample1 = sampleRec1 := by decide
  have h2 : normalizeItem sample2 = sampleRec2 := by decide
  have hk : numOk okAll [sample1, sample2] = 2 := by decide
  refine ⟨?_, ?_, ?_, ?_, ?_⟩ <;>
    simp [init_database, insert_data_eq, hk, newRows, okAll, h1, h2,
      get_data_count]

/-- Claim C10: a valid upload decoding to the empty JSON array, in replace
mode, still clears the table, leaves the store empty, and answers 200 with
count 0 and the message "Successfully processed 0 records". -/
theorem c10_empty_batch_replace (ok : Record → Bool) (db : DB) :
    upload_json ok (.ok (.arr [])) "replace" db
      = (⟨[], db.nextId⟩, 200,
         .ok ⟨0, "Successfully processed 0 records"⟩) := by
  have hb : (pyLower "replace" == "append") = false := by decide
  simp [upload_json, process_json_file, insert_data_eq, hb, newRows, numOk]
  rfl
